import Mathlib

/-!
Verification of the authentication / authorization core of the dental-clinic
SaaS repository: the Next.js route middleware (route classification and
access decisions), the client `AuthService` / `AuthProvider` state machine,
and the `AuthGuard` client component.  Each definition is a shallow
embedding of the corresponding TypeScript source.
-/

/-- User roles, from the `UserRole` type in `lib/types/auth`
(`admin | dentist | receptionist`). -/
inductive Role where
  | admin
  | dentist
  | receptionist
deriving DecidableEq, Repr

/-- Embedding of JavaScript `s.startsWith(p)`: `p` is a prefix of the
character sequence of `s`. -/
def jsStartsWith (s p : String) : Bool :=
  p.data.isPrefixOf s.data

/-- Embedding of JavaScript `s.trim()`: the character sequence of `s`
without leading and trailing whitespace. -/
def jsTrim (s : String) : List Char :=
  ((s.data.dropWhile Char.isWhitespace).reverse.dropWhile Char.isWhitespace).reverse

/-- `publicRoutes` from the middleware. -/
def publicRoutes : List String :=
  ["/login", "/register", "/auth/callback", "/auth/reset-password"]

/-- `authRoutes` from the middleware. -/
def authRoutes : List String :=
  ["/login", "/register"]

/-- `adminRoutes` from the middleware. -/
def adminRoutes : List String :=
  ["/admin", "/settings", "/users"]

/-- `dentistRoutes` from the middleware. -/
def dentistRoutes : List String :=
  ["/reports", "/analytics"]

/-- `publicRoutes.some(route => pathname.startsWith(route))`. -/
def isPublicRoute (pathname : String) : Bool :=
  publicRoutes.any fun route => jsStartsWith pathname route

/-- `authRoutes.some(route => pathname.startsWith(route))`. -/
def isAuthRoute (pathname : String) : Bool :=
  authRoutes.any fun route => jsStartsWith pathname route

/-- `adminRoutes.some(route => pathname.startsWith(route))`. -/
def isAdminRoute (pathname : String) : Bool :=
  adminRoutes.any fun route => jsStartsWith pathname route

/-- `dentistRoutes.some(route => pathname.startsWith(route))`. -/
def isDentistRoute (pathname : String) : Bool :=
  dentistRoutes.any fun route => jsStartsWith pathname route

/-- The middleware's possible outcomes: `next` is passing the request
through (`return res`), `redirectLogin p` is
`NextResponse.redirect('/login?redirectTo=' + p)`, and `redirectDashboard`
is `NextResponse.redirect('/dashboard')`. -/
inductive Decision where
  | next
  | redirectLogin (redirectTo : String)
  | redirectDashboard
deriving DecidableEq, Repr

/-- The access decision of the `middleware` function (both middleware
variants compute the same decision; the second wraps the profile lookup in
a try/catch whose catch branch continues without restrictions, so a lookup
failure behaves like `profile = none`).  `session` is whether
`supabase.auth.getSession()` returned a session; `profile` is the role
from the `profiles` lookup, `none` when the lookup fails or returns
nothing. -/
def middleware (pathname : String) (session : Bool) (profile : Option Role) : Decision :=
  if isAuthRoute pathname && session then
    Decision.redirectDashboard
  else if pathname == "/" && session then
    Decision.redirectDashboard
  else if !isPublicRoute pathname && !session then
    Decision.redirectLogin pathname
  else if session && !isPublicRoute pathname then
    match profile with
    | some role =>
      if isAdminRoute pathname && !(role == Role.admin) then
        Decision.redirectDashboard
      else if isDentistRoute pathname && !([Role.admin, Role.dentist].contains role) then
        Decision.redirectDashboard
      else
        Decision.next
    | none => Decision.next
  else
    Decision.next

/-! Client-side data model, from `lib/types/auth`. -/

/-- `UserProfile` from `lib/types/auth` (the `created_at` timestamp is
irrelevant to every claim and omitted). -/
structure UserProfile where
  id : String
  clinic_id : String
  full_name : String
  role : Role
deriving DecidableEq, Repr

/-- `AuthUser` from `lib/types/auth`. -/
structure AuthUser where
  id : String
  email : String
  role : Role
  profile : UserProfile
  isAuthenticated : Bool
deriving DecidableEq, Repr

/-- The user object returned by the identity provider
(`supabase.auth.getUser()` / `signUp().data.user`). -/
structure SupabaseUser where
  id : String
  email : String
deriving DecidableEq, Repr

/-- `RegisterData` from `lib/types/auth`. -/
structure RegisterData where
  email : String
  password : String
  full_name : String
  role : Role
  clinic_id : String
deriving DecidableEq, Repr

namespace AuthService

/-- `AuthService.getCurrentUser`: `user` is the result of
`supabase.auth.getUser()`, `profile` the result of the `getUserProfile`
lookup for that user. -/
def getCurrentUser (user : Option SupabaseUser) (profile : Option UserProfile) :
    Option AuthUser :=
  match user with
  | none => none
  | some u =>
    match profile with
    | none => none
    | some p =>
      some { id := u.id, email := u.email, role := p.role, profile := p,
             isAuthenticated := true }

/-- `AuthService.logout`: `signOutError` is the error (message) returned by
`supabase.auth.signOut()`, already formatted; the function forwards it, and
returns no error on success. -/
def logout (signOutError : Option String) : Option String :=
  match signOutError with
  | some e => some e
  | none => none

/-- Outcomes of the validation helpers and external calls made by
`AuthService.register`.  `validEmail` and `validPassword` are the results
of `isValidEmail` / `isValidPassword` from `lib/utils` (not part of the
sources); `signUpError` and `signUpUser` come from
`supabase.auth.signUp`, `profileInsertError` from the `profiles` insert,
and `fetchedProfile` from the final `getUserProfile` read. -/
structure RegisterEnv where
  validEmail : Bool
  validPassword : Bool
  signUpError : Option String
  signUpUser : Option SupabaseUser
  profileInsertError : Option String
  fetchedProfile : Option UserProfile
deriving DecidableEq, Repr

/-- `AuthService.register`, returning the `{ user, error }` pair.  The
source also deletes the auth user when the profile insert fails; that
compensation has no effect on the returned pair and is not modelled. -/
def register (data : RegisterData) (env : RegisterEnv) :
    Option AuthUser × Option String :=
  if !env.validEmail then
    (none, some "Email inválido")
  else if !env.validPassword then
    (none, some "La contraseña debe tener al menos 8 caracteres, una mayúscula, una minúscula y un número")
  else if (jsTrim data.full_name).length < 2 then
    (none, some "El nombre completo es requerido")
  else if data.clinic_id == "" then
    (none, some "ID de clínica es requerido")
  else
    match env.signUpError with
    | some e => (none, some e)
    | none =>
      match env.signUpUser with
      | none => (none, some "Error al crear usuario")
      | some u =>
        match env.profileInsertError with
        | some _ => (none, some "Error al crear perfil de usuario")
        | none =>
          match env.fetchedProfile with
          | none => (none, some "Error al obtener perfil de usuario")
          | some p =>
            (some { id := u.id, email := u.email, role := p.role, profile := p,
                    isAuthenticated := true }, none)

end AuthService

/-- The `AuthProvider` context state: `user`, `loading`, `error`. -/
structure AuthState where
  user : Option AuthUser
  loading : Bool
  error : Option String
deriving DecidableEq, Repr

/-- Calls the `AuthProvider` makes to `AuthService` during one transition;
`serviceLogin` is the credential exchange issued by `AuthService.login`. -/
inductive AuthEvent where
  | serviceLogin
  | serviceRegister
  | serviceLogout
deriving DecidableEq, Repr

namespace AuthProvider

/-- One complete run of `AuthProvider.login` starting from state `s`:
sets `loading := true` and `error := null`, unconditionally awaits
`AuthService.login` (whose `{ user, error }` result is `result`), then
applies the result; `finally` clears `loading`.  The returned list records
the `AuthService` calls issued during the run. -/
def login (s : AuthState) (result : Option AuthUser × Option String) :
    AuthState × List AuthEvent :=
  let s1 : AuthState := { s with loading := true, error := none }
  let events := [AuthEvent.serviceLogin]
  match result.2 with
  | some e => ({ s1 with error := some e, loading := false }, events)
  | none =>
    match result.1 with
    | some u => ({ s1 with user := some u, loading := false }, events)
    | none => ({ s1 with loading := false }, events)

/-- One complete run of `AuthProvider.register` starting from state `s`,
with `result` the `{ user, error }` pair returned by
`AuthService.register`. -/
def register (s : AuthState) (result : Option AuthUser × Option String) :
    AuthState :=
  let s1 : AuthState := { s with loading := true, error := none }
  match result.2 with
  | some e => { s1 with error := some e, loading := false }
  | none =>
    match result.1 with
    | some u => { s1 with user := some u, loading := false }
    | none => { s1 with loading := false }

/-- One complete run of `AuthProvider.logout` starting from state `s`:
sets `loading := true` and `error := null`, awaits `AuthService.logout`
(with `signOutError` the remote invalidation outcome); on an error it sets
`error` and returns early WITHOUT touching `user`; only on success does it
run `setUser(null)`; `finally` clears `loading`. -/
def logout (s : AuthState) (signOutError : Option String) : AuthState :=
  let s1 : AuthState := { s with loading := true, error := none }
  match AuthService.logout signOutError with
  | some e => { s1 with error := some e, loading := false }
  | none => { s1 with user := none, loading := false }

end AuthProvider

/-- What the `AuthGuard` component renders once mounted (`isClient`) with
`loading` finished: `render` shows the children, `pushLogin` is
`router.push('/login')`, `pushDashboard` is `router.push('/dashboard')`. -/
inductive GuardDecision where
  | render
  | pushLogin
  | pushDashboard
deriving DecidableEq, Repr

/-- The `AuthGuard` component's decision, given its `requireAuth` and
`allowedRoles` props and the `user` from the auth context. -/
def authGuard (requireAuth : Bool) (allowedRoles : List Role)
    (user : Option AuthUser) : GuardDecision :=
  if requireAuth && user.isNone then
    GuardDecision.pushLogin
  else
    match user with
    | some u =>
      if allowedRoles.length > 0 && !(allowedRoles.contains u.role) then
        GuardDecision.pushDashboard
      else if !requireAuth then
        GuardDecision.pushDashboard
      else
        GuardDecision.render
    | none => GuardDecision.render

/-- Comparable shape of a server and a client decision: allow, send to the
login page, or send to the dashboard. -/
inductive DecisionKind where
  | allow
  | toLogin
  | toDashboard
deriving DecidableEq, Repr

/-- The kind of a middleware decision. -/
def Decision.kind : Decision → DecisionKind
  | Decision.next => DecisionKind.allow
  | Decision.redirectLogin _ => DecisionKind.toLogin
  | Decision.redirectDashboard => DecisionKind.toDashboard

/-- The kind of a guard decision. -/
def GuardDecision.kind : GuardDecision → DecisionKind
  | GuardDecision.render => DecisionKind.allow
  | GuardDecision.pushLogin => DecisionKind.toLogin
  | GuardDecision.pushDashboard => DecisionKind.toDashboard

/-- The `AuthGuard` props actually mounted by the repository's pages: the
login and register pages mount `AuthGuard requireAuth={false}` and the
dashboard page (`DashboardPage`, path `/dashboard`) mounts
`AuthGuard requireAuth={true}`; no page passes `allowedRoles`, which
therefore defaults to `[]`.  The root page (`HomePage` in `app/page.tsx`)
mounts no `AuthGuard`: it pushes `/dashboard` or `/login` itself and is
not part of this map. -/
def pageGuardProps (path : String) : Option (Bool × List Role) :=
  if path == "/login" then some (false, [])
  else if path == "/register" then some (false, [])
  else if path == "/dashboard" then some (true, [])
  else none

/-- Sample concrete profile used by witnesses and counterexamples. -/
def sampleProfile : UserProfile :=
  { id := "u1", clinic_id := "c1", full_name := "Ana García", role := Role.admin }

/-- Sample concrete identity-provider user. -/
def sampleSubject : SupabaseUser :=
  { id := "u1", email := "ana@clinic.example" }

/-- Sample concrete authenticated client user. -/
def sampleUser : AuthUser :=
  { id := "u1", email := "ana@clinic.example", role := Role.admin,
    profile := sampleProfile, isAuthenticated := true }

/-! Helper lemmas about prefix matching on routes. -/

/-- If `p` is a prefix of `l` and `q` is incomparable with `p`, then `q` is
not a prefix of `l`. -/
theorem isPrefixOf_false_of_incomp {l p q : List Char}
    (h : p.isPrefixOf l = true)
    (h1 : p.isPrefixOf q = false) (h2 : q.isPrefixOf p = false) :
    q.isPrefixOf l = false := by
  rw [ List.isPrefixOf_iff_prefix] at h
  by_contra hq
  rw [Bool.not_eq_false, List.isPrefixOf_iff_prefix] at hq
  rcases List.prefix_or_prefix_of_prefix h hq with hpq | hqp
  · rw [← List.isPrefixOf_iff_prefix] at hpq
    rw [hpq] at h1
    cases h1
  · rw [← List.isPrefixOf_iff_prefix] at hqp
    rw [hqp] at h2
    cases h2

/-- If some route in `ps` matches `path` and every route of `ps` is
prefix-incomparable with every route of `qs`, then no route in `qs`
matches `path`. -/
theorem anyStartsWith_false (path : String) (ps qs : List String)
    (h : ps.any (fun r => jsStartsWith path r) = true)
    (hd : ∀ p ∈ ps, ∀ q ∈ qs,
      p.data.isPrefixOf q.data = false ∧ q.data.isPrefixOf p.data = false) :
    qs.any (fun r => jsStartsWith path r) = false := by
  rw [List.any_eq_true] at h
  obtain ⟨p, hp, hsp⟩ := h
  rw [List.any_eq_false]
  intro q hq
  have hinc := hd p hp q hq
  unfold jsStartsWith at hsp ⊢
  simp only [Bool.not_eq_true]
  exact isPrefixOf_false_of_incomp hsp hinc.1 hinc.2

/-- If some route in `ps` matches `path` and no route of `ps` is a prefix
of `"/"`, then `path` is not the root path. -/
theorem ne_root_of_any (path : String) (ps : List String)
    (h : ps.any (fun r => jsStartsWith path r) = true)
    (hd : ∀ p ∈ ps, p.data.isPrefixOf "/".data = false) :
    (path == "/") = false := by
  by_contra hroot
  rw [Bool.not_eq_false, beq_iff_eq] at hroot
  subst hroot
  rw [List.any_eq_true] at h
  obtain ⟨p, hp, hsp⟩ := h
  unfold jsStartsWith at hsp
  rw [hd p hp] at hsp
  cases hsp

/-- An admin route is never a public route. -/
theorem adminRoute_not_public (path : String) (h : isAdminRoute path = true) :
    isPublicRoute path = false :=
  anyStartsWith_false path adminRoutes publicRoutes h (by decide)

/-- An admin route is never the root path. -/
theorem adminRoute_ne_root (path : String) (h : isAdminRoute path = true) :
    (path == "/") = false :=
  ne_root_of_any path adminRoutes h (by decide)

/-- A dentist route is never a public route. -/
theorem dentistRoute_not_public (path : String) (h : isDentistRoute path = true) :
    isPublicRoute path = false :=
  anyStartsWith_false path dentistRoutes publicRoutes h (by decide)

/-- A dentist route is never an admin route. -/
theorem dentistRoute_not_admin (path : String) (h : isDentistRoute path = true) :
    isAdminRoute path = false :=
  anyStartsWith_false path dentistRoutes adminRoutes h (by decide)

/-- A dentist route is never the root path. -/
theorem dentistRoute_ne_root (path : String) (h : isDentistRoute path = true) :
    (path == "/") = false :=
  ne_root_of_any path dentistRoutes h (by decide)

/-- An auth route is always a public route (its prefixes are listed in
`publicRoutes` as well). -/
theorem authRoute_public (path : String) (h : isAuthRoute path = true) :
    isPublicRoute path = true := by
  rw [isAuthRoute, List.any_eq_true] at h
  obtain ⟨p, hp, hsp⟩ := h
  rw [isPublicRoute, List.any_eq_true]
  refine ⟨p, ?_, hsp⟩
  fin_cases hp <;> decide

/-- A non-public route is never an auth route. -/
theorem not_auth_of_not_public (path : String) (h : isPublicRoute path = false) :
    isAuthRoute path = false := by
  by_contra hq
  rw [Bool.not_eq_false] at hq
  rw [authRoute_public path hq] at h
  cases h

/-- With a session but no resolvable profile, the middleware skips the role
checks entirely and passes the request through on every route that is
neither an auth route nor the root path. -/
theorem middleware_skips_role_checks (path : String)
    (hA : isAuthRoute path = false) (hR : (path == "/") = false) :
    middleware path true none = Decision.next := by
  cases hP : isPublicRoute path <;> simp [middleware, hA, hR, hP]

/-!  Claims. -/

/-- C1, counterexample: `/admin` is admin-restricted, yet with a valid
session whose profile lookup returned nothing the middleware passes the
request through (`next`) instead of redirecting. -/
theorem C1_counterexample :
    isAdminRoute "/admin" = true ∧ middleware "/admin" true none = Decision.next := by
  decide

/-- C1, amended: with a valid session whose profile lookup fails or returns
nothing, the middleware allows every route that is neither an auth route
nor the root path — including admin-restricted and role-restricted routes
(fail open): the role checks are skipped, so a session without a
resolvable profile is never denied by a role check, and non-restricted
protected routes are allowed as well. -/
theorem C1_missing_profile_fail_open (path : String)
    (hA : isAuthRoute path = false) (hR : (path == "/") = false) :
    middleware path true none = Decision.next :=
  middleware_skips_role_checks path hA hR

/-- C1 witness: instantiated at the admin-restricted path `/admin`. -/
theorem C1_missing_profile_fail_open_witness :
    isAuthRoute "/admin" = false ∧ ("/admin" == "/") = false
    ∧ middleware "/admin" true none = Decision.next :=
  ⟨by decide, by decide, C1_missing_profile_fail_open "/admin" (by decide) (by decide)⟩

/-- C2: on every admin-restricted path (prefix `/admin`, `/settings` or
`/users`), the decision is `next` (allow) iff the session is present and
the resolved role is `admin`; with no session it is a redirect to the
login page carrying the original path, and with a session but a
mismatching role it is a redirect to the dashboard. -/
theorem C2_admin_route_decision (path : String) (h : isAdminRoute path = true) :
    (∀ (session : Bool) (role : Role),
      middleware path session (some role) = Decision.next
        ↔ session = true ∧ role = Role.admin)
    ∧ (∀ profile : Option Role,
        middleware path false profile = Decision.redirectLogin path)
    ∧ (∀ role : Role, role ≠ Role.admin →
        middleware path true (some role) = Decision.redirectDashboard) := by
  have hP := adminRoute_not_public path h
  have hAu := not_auth_of_not_public path hP
  have hR := adminRoute_ne_root path h
  refine ⟨?_, ?_, ?_⟩
  · intro session role
    cases session <;> cases role <;> simp [middleware, h, hP, hAu, hR]
  · intro profile
    simp [middleware, h, hP, hAu, hR]
  · intro role hrole
    cases role
    · exact absurd rfl hrole
    · simp [middleware, h, hP, hAu, hR]
    · simp [middleware, h, hP, hAu, hR]

/-- C2 witness: instantiated at `/admin`. -/
theorem C2_admin_route_decision_witness :
    isAdminRoute "/admin" = true
    ∧ (middleware "/admin" true (some Role.admin) = Decision.next
        ↔ true = true ∧ Role.admin = Role.admin)
    ∧ middleware "/admin" false none = Decision.redirectLogin "/admin"
    ∧ middleware "/admin" true (some Role.dentist) = Decision.redirectDashboard :=
  ⟨by decide,
   (C2_admin_route_decision "/admin" (by decide)).1 true Role.admin,
   (C2_admin_route_decision "/admin" (by decide)).2.1 none,
   (C2_admin_route_decision "/admin" (by decide)).2.2 Role.dentist (by decide)⟩

/-- C3: on every path that is not classified public, a request without a
session is redirected to the login page carrying a `redirectTo` query
parameter equal to the original request path. -/
theorem C3_unauthenticated_redirect (path : String) (h : isPublicRoute path = false) :
    ∀ profile : Option Role, middleware path false profile = Decision.redirectLogin path := by
  intro profile
  have hAu := not_auth_of_not_public path h
  simp [middleware, h, hAu]

/-- C3 witness: a request to `/admin` with no session is redirected to
`/login?redirectTo=/admin`. -/
theorem C3_unauthenticated_redirect_witness :
    isPublicRoute "/admin" = false
    ∧ middleware "/admin" false none = Decision.redirectLogin "/admin" :=
  ⟨by decide, C3_unauthenticated_redirect "/admin" (by decide) none⟩

/-- C4: on every role-restricted path (prefix `/reports` or `/analytics`),
with a session and a resolved profile, role `receptionist` is redirected
to the dashboard and role `dentist` is allowed. -/
theorem C4_role_restricted_decision (path : String) (h : isDentistRoute path = true) :
    middleware path true (some Role.receptionist) = Decision.redirectDashboard
    ∧ middleware path true (some Role.dentist) = Decision.next := by
  have hP := dentistRoute_not_public path h
  have hAu := not_auth_of_not_public path hP
  have hAd := dentistRoute_not_admin path h
  have hR := dentistRoute_ne_root path h
  constructor <;> simp [middleware, h, hP, hAu, hAd, hR]

/-- C4 witness: instantiated at `/reports`. -/
theorem C4_role_restricted_decision_witness :
    isDentistRoute "/reports" = true
    ∧ (middleware "/reports" true (some Role.receptionist) = Decision.redirectDashboard
        ∧ middleware "/reports" true (some Role.dentist) = Decision.next) :=
  ⟨by decide, C4_role_restricted_decision "/reports" (by decide)⟩

/-- C5: on every auth-only path (prefix `/login` or `/register`), the
decision is allow when there is no session, and a redirect to the
dashboard when a session exists — in both cases regardless of the
profile. -/
theorem C5_auth_only_decision (path : String) (h : isAuthRoute path = true) :
    (∀ profile : Option Role, middleware path false profile = Decision.next)
    ∧ (∀ profile : Option Role, middleware path true profile = Decision.redirectDashboard) := by
  have hP := authRoute_public path h
  constructor <;> intro profile <;> simp [middleware, h, hP]

/-- C5 witness: instantiated at `/login`. -/
theorem C5_auth_only_decision_witness :
    isAuthRoute "/login" = true
    ∧ middleware "/login" false none = Decision.next
    ∧ middleware "/login" true (some Role.admin) = Decision.redirectDashboard :=
  ⟨by decide,
   (C5_auth_only_decision "/login" (by decide)).1 none,
   (C5_auth_only_decision "/login" (by decide)).2 (some Role.admin)⟩

/-- C6, counterexample: when the remote invalidation call returns an
error, `AuthProvider.logout` returns early after surfacing the error and
never clears the user — the state keeps its authenticated user. -/
theorem C6_counterexample :
    (AuthProvider.logout
        { user := some sampleUser, loading := false, error := none }
        (some "network error")).user ≠ none := by
  decide

/-- C6, amended: `AuthProvider.logout` clears the user only when the
remote invalidation succeeds; when `AuthService.logout` reports an error
the user is left unchanged and the error is surfaced (loading returns to
false in both cases). -/
theorem C6_logout_clears_only_on_success (s : AuthState) :
    ((AuthProvider.logout s none).user = none
      ∧ (AuthProvider.logout s none).loading = false)
    ∧ ∀ e : String,
        (AuthProvider.logout s (some e)).user = s.user
        ∧ (AuthProvider.logout s (some e)).error = some e
        ∧ (AuthProvider.logout s (some e)).loading = false :=
  ⟨⟨rfl, rfl⟩, fun _ => ⟨rfl, rfl, rfl⟩⟩

/-- C7, counterexample: a call to `AuthProvider.login` in a state already
`loading` still issues a credential exchange (the claim would require
zero). -/
theorem C7_counterexample :
    ¬ ((AuthProvider.login { user := none, loading := true, error := none }
          (none, none)).2.count AuthEvent.serviceLogin = 0) := by
  decide

/-- C7, amended: `AuthProvider.login` never consults `loading`: every call
— in particular one made while the state is already `loading` — issues
exactly one credential exchange, so two overlapping calls issue two;
nothing in the state machine ignores or queues them. -/
theorem C7_login_always_exchanges (s : AuthState) (h : s.loading = true)
    (result : Option AuthUser × Option String) :
    ((AuthProvider.login s result).2.count AuthEvent.serviceLogin) = 1 := by
  rcases result with ⟨u, e⟩
  cases e <;> cases u <;> rfl

/-- C7 witness: instantiated at a loading state. -/
theorem C7_login_always_exchanges_witness :
    ({ user := none, loading := true, error := none } : AuthState).loading = true
    ∧ ((AuthProvider.login { user := none, loading := true, error := none }
          (none, none)).2.count AuthEvent.serviceLogin) = 1 :=
  ⟨rfl, C7_login_always_exchanges { user := none, loading := true, error := none }
          rfl (none, none)⟩

/-- C8: when credential creation succeeds but the profile insert fails,
`AuthService.register` surfaces an error with a null user, and a state
whose user was null stays null after the `AuthProvider.register` run — the
caller is never presented as authenticated. -/
theorem C8_register_profile_failure (data : RegisterData)
    (env : AuthService.RegisterEnv) (s : AuthState)
    (hve : env.validEmail = true) (hvp : env.validPassword = true)
    (hname : 2 ≤ (jsTrim data.full_name).length)
    (hclinic : (data.clinic_id == "") = false)
    (hsue : env.signUpError = none) (hsuu : env.signUpUser.isSome = true)
    (hpe : env.profileInsertError.isSome = true)
    (hs : s.user = none) :
    AuthService.register data env = (none, some "Error al crear perfil de usuario")
    ∧ (AuthProvider.register s (AuthService.register data env)).user = none
    ∧ (AuthProvider.register s (AuthService.register data env)).error
        = some "Error al crear perfil de usuario" := by
  obtain ⟨u, hu⟩ := Option.isSome_iff_exists.mp hsuu
  obtain ⟨e, he⟩ := Option.isSome_iff_exists.mp hpe
  have hnl : ¬ ((jsTrim data.full_name).length < 2) := Nat.not_lt.mpr hname
  have hreg : AuthService.register data env
      = (none, some "Error al crear perfil de usuario") := by
    simp [AuthService.register, hve, hvp, hsue, hu, he, hclinic, hnl]
  refine ⟨hreg, ?_, ?_⟩
  · rw [hreg]
    simp [AuthProvider.register, hs]
  · rw [hreg]
    simp [AuthProvider.register]

/-- C8 witness: a concrete registration whose sign-up succeeds and whose
profile insert fails. -/
theorem C8_register_profile_failure_witness :
    AuthService.register
        { email := "ana@clinic.example", password := "Passw0rdX",
          full_name := "Ana García", role := Role.receptionist,
          clinic_id := "c1" }
        { validEmail := true, validPassword := true, signUpError := none,
          signUpUser := some sampleSubject,
          profileInsertError := some "insert failed",
          fetchedProfile := none }
      = (none, some "Error al crear perfil de usuario")
    ∧ (AuthProvider.register { user := none, loading := false, error := none }
        (AuthService.register
          { email := "ana@clinic.example", password := "Passw0rdX",
            full_name := "Ana García", role := Role.receptionist,
            clinic_id := "c1" }
          { validEmail := true, validPassword := true, signUpError := none,
            signUpUser := some sampleSubject,
            profileInsertError := some "insert failed",
            fetchedProfile := none })).user = none
    ∧ (AuthProvider.register { user := none, loading := false, error := none }
        (AuthService.register
          { email := "ana@clinic.example", password := "Passw0rdX",
            full_name := "Ana García", role := Role.receptionist,
            clinic_id := "c1" }
          { validEmail := true, validPassword := true, signUpError := none,
            signUpUser := some sampleSubject,
            profileInsertError := some "insert failed",
            fetchedProfile := none })).error
        = some "Error al crear perfil de usuario" :=
  C8_register_profile_failure _ _ _ rfl rfl (by decide) (by decide) rfl rfl rfl rfl

/-- A path in the domain of `pageGuardProps` is one of the three pages
that mount `AuthGuard`, with the props they pass. -/
theorem pageGuardProps_cases (path : String) (ra : Bool) (roles : List Role)
    (h : pageGuardProps path = some (ra, roles)) :
    (path = "/login" ∧ ra = false ∧ roles = [])
    ∨ (path = "/register" ∧ ra = false ∧ roles = [])
    ∨ (path = "/dashboard" ∧ ra = true ∧ roles = []) := by
  unfold pageGuardProps at h
  cases hs1 : path == "/login" with
  | true =>
    rw [beq_iff_eq] at hs1
    subst hs1
    simp at h
    obtain ⟨h1, h2⟩ := h
    subst h1
    subst h2
    exact Or.inl ⟨rfl, rfl, rfl⟩
  | false =>
    rw [hs1] at h
    simp only [Bool.false_eq_true, if_false] at h
    cases hs2 : path == "/register" with
    | true =>
      rw [beq_iff_eq] at hs2
      subst hs2
      simp at h
      obtain ⟨h1, h2⟩ := h
      subst h1
      subst h2
      exact Or.inr (Or.inl ⟨rfl, rfl, rfl⟩)
    | false =>
      rw [hs2] at h
      simp only [Bool.false_eq_true, if_false] at h
      cases hs3 : path == "/dashboard" with
      | true =>
        rw [beq_iff_eq] at hs3
        subst hs3
        simp at h
        obtain ⟨h1, h2⟩ := h
        subst h1
        subst h2
        exact Or.inr (Or.inr ⟨rfl, rfl, rfl⟩)
      | false =>
        rw [hs3] at h
        simp at h

/-- C9, counterexample: on `/dashboard` — the page that mounts
`AuthGuard requireAuth={true}` — with a valid session whose profile lookup
returns nothing, the middleware passes the request through while the guard
redirects to the login page: the two decisions disagree. -/
theorem C9_counterexample :
    pageGuardProps "/dashboard" = some (true, [])
    ∧ (authGuard true []
          (AuthService.getCurrentUser (some sampleSubject) none)).kind
        ≠ (middleware "/dashboard" true
            ((none : Option UserProfile).map UserProfile.role)).kind := by
  constructor
  · decide
  · decide

/-- C9, amended: for the pages that mount `AuthGuard` (`/login` and
`/register` with `requireAuth := false`, `/dashboard` with
`requireAuth := true`; the root page mounts no guard), the guard's
decision agrees with the middleware's whenever the session is absent, and
whenever a session is present with a resolved profile; when a session
exists but the profile does not resolve the two can disagree, as the
counterexample shows. -/
theorem C9_guard_middleware_partial_agreement :
    (∀ (path : String) (ra : Bool) (roles : List Role)
        (profile : Option UserProfile),
      pageGuardProps path = some (ra, roles) →
      (authGuard ra roles (AuthService.getCurrentUser none profile)).kind
        = (middleware path false (profile.map UserProfile.role)).kind)
    ∧ (∀ (path : String) (ra : Bool) (roles : List Role)
        (u : SupabaseUser) (p : UserProfile),
      pageGuardProps path = some (ra, roles) →
      (authGuard ra roles (AuthService.getCurrentUser (some u) (some p))).kind
        = (middleware path true (some p.role)).kind) := by
  constructor
  · intro path ra roles profile hpg
    rcases pageGuardProps_cases path ra roles hpg with
      ⟨h1, h2, h3⟩ | ⟨h1, h2, h3⟩ | ⟨h1, h2, h3⟩ <;>
        subst h1 <;> subst h2 <;> subst h3 <;> cases profile <;> rfl
  · intro path ra roles u p hpg
    rcases pageGuardProps_cases path ra roles hpg with
      ⟨h1, h2, h3⟩ | ⟨h1, h2, h3⟩ | ⟨h1, h2, h3⟩ <;>
        subst h1 <;> subst h2 <;> subst h3 <;> rfl

/-- C9 witness: the no-session agreement instantiated at the dashboard
page, and the resolved-profile agreement instantiated at the login page. -/
theorem C9_guard_middleware_partial_agreement_witness :
    (pageGuardProps "/dashboard" = some (true, [])
      ∧ (authGuard true [] (AuthService.getCurrentUser none none)).kind
          = (middleware "/dashboard" false
              ((none : Option UserProfile).map UserProfile.role)).kind)
    ∧ (pageGuardProps "/login" = some (false, [])
      ∧ (authGuard false []
            (AuthService.getCurrentUser (some sampleSubject) (some sampleProfile))).kind
          = (middleware "/login" true (some sampleProfile.role)).kind) :=
  ⟨⟨by decide,
    C9_guard_middleware_partial_agreement.1 "/dashboard" true [] none (by decide)⟩,
   ⟨by decide,
    C9_guard_middleware_partial_agreement.2 "/login" false [] sampleSubject
      sampleProfile (by decide)⟩⟩

/-- C10: `AuthService.getCurrentUser` returns null whenever the profile
lookup returns nothing, even though the identity provider reported a valid
user — while for the same situation (valid session, no profile) the
middleware passes an admin-restricted request through, so the client
presents the caller as anonymous where the middleware treats the session
as authenticated. -/
theorem C10_client_anonymous_on_missing_profile :
    (∀ u : SupabaseUser, AuthService.getCurrentUser (some u) none = none)
    ∧ (∀ path : String, isAdminRoute path = true →
        middleware path true none = Decision.next) := by
  constructor
  · intro u
    rfl
  · intro path h
    exact middleware_skips_role_checks path
      (not_auth_of_not_public path (adminRoute_not_public path h))
      (adminRoute_ne_root path h)

/-- C10 witness: instantiated at a concrete identity-provider user and at
`/admin`. -/
theorem C10_client_anonymous_on_missing_profile_witness :
    AuthService.getCurrentUser (some sampleSubject) none = none
    ∧ middleware "/admin" true none = Decision.next :=
  ⟨C10_client_anonymous_on_missing_profile.1 sampleSubject,
   C10_client_anonymous_on_missing_profile.2 "/admin" (by decide)⟩
